import Mathlib

/-!
# tcping: a shallow embedding of `tcping.c`

`tcping` performs one non-blocking TCP connect and classifies the outcome by
its exit status (`-1` error, `0` open, `1` closed, `2` user timeout).

The embedding follows `main` of `tcping.c` line by line.  Calls into the C
library and the operating system (`socket`, `gethostbyname`, `connect`,
`select`, `getsockopt`, `strerror`) return whatever the environment `Env`
says; `getopt` and `strtol` are modelled after their POSIX definitions.  A run
produces the ordered list of observable events and a termination status.

Conventions of the model:

* `long` is 64 bits wide, `int` 32 bits; signed overflow and a null pointer
  handed to `gethostbyname` end a run in `Status.undefined`;
* `getopt` does not permute `argv`, and since `main` never clears `opterr` it
  writes its own diagnostic on the error stream when it returns `?`;
* `exit(-1)` and `return -1` from `main` are both recorded as exit status `-1`;
* the two `#ifdef` switches of the source are the fields of `Build`.
-/

namespace Tcping

/-! ## C library: `strtol` -/

/-- Largest value of a C `long` (LP64). -/
def LONG_MAX : Int := 9223372036854775807

/-- Smallest value of a C `long` (LP64). -/
def LONG_MIN : Int := -9223372036854775808

/-- Whether an integer is representable as a C `long`. -/
def inLong (x : Int) : Bool := decide (LONG_MIN ≤ x) && decide (x ≤ LONG_MAX)

/-- The C locale `isspace`: space, `\t`, `\n`, `\v`, `\f`, `\r`. -/
def isspace (c : Char) : Bool :=
  c.toNat = 32 || (9 ≤ c.toNat && c.toNat ≤ 13)

/-- The C locale `isdigit`. -/
def isdigit (c : Char) : Bool := 48 ≤ c.toNat && c.toNat ≤ 57

/-- Value of a run of decimal digits, most significant first. -/
def digitsValue (ds : List Char) : Nat :=
  ds.foldl (fun acc c => acc * 10 + (c.toNat - 48)) 0

/-- Result of `strtol(nptr, &endptr, 10)`: the returned value and
`endptr - nptr`, the number of characters consumed. -/
structure StrtolResult where
  value : Int
  consumed : Nat
  deriving DecidableEq, Repr

/-- Splits an optional sign off the subject sequence: negative?, sign length, rest. -/
def splitSign : List Char → Bool × Nat × List Char
  | '-' :: t => (true, 1, t)
  | '+' :: t => (false, 1, t)
  | s => (false, 0, s)

/-- Clamps to the range of `long`, as `strtol` does on overflow (`ERANGE`). -/
def clampLong (x : Int) : Int :=
  if x < LONG_MIN then LONG_MIN else if LONG_MAX < x then LONG_MAX else x

/-- POSIX `strtol` in base 10: leading white space, an optional sign, then
decimal digits.  Without any digit no conversion is performed: the value is `0`
and `endptr = nptr`. -/
def strtol (s : List Char) : StrtolResult :=
  let ws := (s.takeWhile isspace).length
  let sg := splitSign (s.dropWhile isspace)
  let ds := sg.2.2.takeWhile isdigit
  if ds.length = 0 then ⟨0, 0⟩
  else
    let mag : Int := (digitsValue ds : Nat)
    ⟨clampLong (if sg.1 then -mag else mag), ws + sg.2.1 + ds.length⟩

/-! ## Observable events and runs -/

/-- The two output streams. -/
inductive Stream
  | stdout
  | stderr
  deriving DecidableEq, Repr

/-- The `struct timeval` handed to `select`. -/
structure Timeval where
  tv_sec : Int
  tv_usec : Int
  deriving DecidableEq, Repr

/-- The last argument of `select`: `NULL` (wait without deadline) or `&timeout`. -/
inductive SelectTimeout
  | null
  | ptr (tv : Timeval)
  deriving DecidableEq, Repr

/-- The fields of `struct sockaddr_in` that `main` fills in.  `sin_port` holds
the port number whose network byte order image `htons` stores. -/
structure SockAddrIn where
  sin_family : Int
  sin_port : Nat
  sin_addr : Nat
  deriving DecidableEq, Repr

/-- Observable events of a run, in program order. -/
inductive Event
  | socket (fd : Int)
  | connect (fd : Int) (addr : SockAddrIn)
  | select (timeout : SelectTimeout)
  | close (fd : Int)
  | write (stream : Stream) (text : String)
  | getoptDiag (text : String)
  deriving DecidableEq, Repr

/-- How a run ends: with an exit status, or in behaviour the C library leaves
undefined (a null pointer passed to `gethostbyname`, signed overflow). -/
inductive Status
  | exited (code : Int)
  | undefined
  deriving DecidableEq, Repr

/-- A finished run. -/
structure Run where
  trace : List Event
  status : Status
  deriving DecidableEq, Repr

/-- Everything written to either stream, library diagnostics included. -/
def emitted (r : Run) : List (Stream × String) :=
  r.trace.filterMap fun e =>
    match e with
    | .write s t => some (s, t)
    | .getoptDiag t => some (Stream.stderr, t)
    | _ => none

/-- The lines written by the `fprintf` calls of the program itself. -/
def writes (r : Run) : List (Stream × String) :=
  r.trace.filterMap fun e =>
    match e with
    | .write s t => some (s, t)
    | _ => none

/-- The diagnostics `getopt` wrote on the error stream. -/
def diagnostics (r : Run) : List String :=
  r.trace.filterMap fun e =>
    match e with
    | .getoptDiag t => some t
    | _ => none

/-! ## Environment -/

/-- The `errno` values `main` distinguishes, plus the one `connect` reports
for a descriptor that is not open. -/
inductive Errno
  | EINPROGRESS
  | ECONNREFUSED
  | EBADF
  | other (code : Nat)
  deriving DecidableEq, Repr

/-- The part of `struct hostent` that `main` reads: `h_addrtype` and
`h_addr_list[0]`. -/
structure HostEnt where
  h_addrtype : Int
  h_addr : Nat
  deriving DecidableEq, Repr

/-- Return value of `connect` and the `errno` it leaves. -/
structure ConnectResult where
  ret : Int
  errno : Errno
  deriving DecidableEq, Repr

/-- Return value of `select` and `FD_ISSET(sockfd, ·)` on the two sets after
the call. -/
structure SelectResult where
  ret : Int
  rset : Bool
  wset : Bool
  deriving DecidableEq, Repr

/-- Return value of `getsockopt(SO_ERROR)`, the pending error it stores and
the `errno` it leaves. -/
structure GetsockoptResult where
  ret : Int
  error : Int
  errno : Errno
  deriving DecidableEq, Repr

/-- Compile-time configuration (`#ifdef`). -/
structure Build where
  HAVE_HSTRERROR : Bool
  HAVE_SOLARIS : Bool
  deriving DecidableEq, Repr

/-- Behaviour of the operating system and resolver during one run. -/
structure Env where
  socket : Int
  gethostbyname : String → Option HostEnt
  hstrerror : String
  connect : SockAddrIn → ConnectResult
  select : SelectTimeout → SelectResult
  getsockopt : GetsockoptResult
  strerror : Errno → String

/-- The function `connect` on descriptor `sockfd`: a descriptor that `socket` failed to
deliver (negative) makes it fail with `EBADF`. -/
def connectCall (env : Env) (sockfd : Int) (addr : SockAddrIn) : ConnectResult :=
  if sockfd < 0 then ⟨-1, Errno.EBADF⟩ else env.connect addr

/-! ## `usage` and option parsing -/

/-- The text `usage` prints. -/
def usageText (prog : String) : String :=
  "error: Usage: " ++ prog ++ " [-q] [-t timeout_sec] [-u timeout_usec] <host> <port>\n"

/-- The function `usage(prog)`: one line on the error stream, then `exit(-1)`. -/
def usage (prog : String) : Run :=
  ⟨[Event.write Stream.stderr (usageText prog)], Status.exited (-1)⟩

/-- The variables the option loop assigns. -/
structure Opts where
  verbose : Bool
  timeout_sec : Int
  timeout_usec : Int
  deriving DecidableEq, Repr

/-- Initial values: `verbose=1`, `timeout_sec=0`, `timeout_usec=0`. -/
def Opts.init : Opts := ⟨true, 0, 0⟩

/-- Diagnostic of `getopt` for an option character not in `"qt:u:"` (`opterr`
is never cleared).  The wording is the C library's. -/
def invalidOptionText (prog : String) (c : Char) : String :=
  prog ++ ": invalid option -- " ++ String.singleton c ++ "\n"

/-- Diagnostic of `getopt` for `-t` or `-u` at the end of the argument list. -/
def missingArgumentText (prog : String) (c : Char) : String :=
  prog ++ ": option requires an argument -- " ++ String.singleton c ++ "\n"

/-- Outcome of scanning one argument that starts with `-`. -/
inductive Cluster
  | next (o : Opts) (usedNext : Bool)
  | usage (diag : List Event)
  deriving DecidableEq, Repr

/-- The calls of `getopt(argc, argv, "qt:u:")` on the option characters `cs` of
one argument, each followed by its `case` body; `nxt` is the following element
of `argv`, if any.  `q` takes no value; the value of `t` and `u` is the rest
of the argument or else the next argument.  `Cluster.usage` carries the
diagnostic `getopt` printed when it returned `?` (unknown character, missing
value) and is empty when the `case` body called `usage` because `strtol`
converted nothing.  `usedNext` tells whether `getopt` took `nxt` as `optarg`. -/
def scanCluster (prog : String) (nxt : Option String) : Opts → List Char → Cluster
  | o, [] => Cluster.next o false
  | o, 'q' :: cs => scanCluster prog nxt ⟨false, o.timeout_sec, o.timeout_usec⟩ cs
  | o, 't' :: [] =>
    match nxt with
    | none => Cluster.usage [Event.getoptDiag (missingArgumentText prog 't')]
    | some optarg =>
      if (strtol optarg.data).consumed = 0 then Cluster.usage []
      else Cluster.next ⟨o.verbose, (strtol optarg.data).value, o.timeout_usec⟩ true
  | o, 't' :: c :: cs =>
    if (strtol (c :: cs)).consumed = 0 then Cluster.usage []
    else Cluster.next ⟨o.verbose, (strtol (c :: cs)).value, o.timeout_usec⟩ false
  | o, 'u' :: [] =>
    match nxt with
    | none => Cluster.usage [Event.getoptDiag (missingArgumentText prog 'u')]
    | some optarg =>
      if (strtol optarg.data).consumed = 0 then Cluster.usage []
      else Cluster.next ⟨o.verbose, o.timeout_sec, (strtol optarg.data).value⟩ true
  | o, 'u' :: c :: cs =>
    if (strtol (c :: cs)).consumed = 0 then Cluster.usage []
    else Cluster.next ⟨o.verbose, o.timeout_sec, (strtol (c :: cs)).value⟩ false
  | _, c :: _ => Cluster.usage [Event.getoptDiag (invalidOptionText prog c)]

/-- Result of the whole `while ((c = getopt(...)) != -1)` loop. -/
inductive Parsed
  | done (o : Opts) (rest : List String)
  | usage (diag : List Event)
  deriving DecidableEq, Repr

/-- How `getopt` classifies `argv[optind]`. -/
inductive ArgKind
  | operand
  | endMarker
  | options (cs : List Char)
  deriving DecidableEq, Repr

/-- POSIX `getopt`: an argument is an option cluster when it starts with `-`
and has a further character; `--` ends the options; anything else (also `-`
alone) is the first operand. -/
def argKind : List Char → ArgKind
  | ['-', '-'] => ArgKind.endMarker
  | '-' :: c :: cs => ArgKind.options (c :: cs)
  | _ => ArgKind.operand

/-- The option loop of `main` over `argv[1..]`, with POSIX `getopt` (no
permutation of operands).  `Parsed.done o rest` is the state when `getopt`
returns `-1`, where `rest` is `argv[optind..]`; `Parsed.usage` is a call of
`usage` from inside the loop. -/
def getoptLoop (prog : String) : Opts → List String → Parsed
  | o, [] => Parsed.done o []
  | o, [a] =>
    match argKind a.data with
    | ArgKind.operand => Parsed.done o [a]
    | ArgKind.endMarker => Parsed.done o []
    | ArgKind.options cs =>
      match scanCluster prog none o cs with
      | Cluster.usage d => Parsed.usage d
      | Cluster.next o1 _ => Parsed.done o1 []
  | o, a :: b :: rest =>
    match argKind a.data with
    | ArgKind.operand => Parsed.done o (a :: b :: rest)
    | ArgKind.endMarker => Parsed.done o (b :: rest)
    | ArgKind.options cs =>
      match scanCluster prog (some b) o cs with
      | Cluster.usage d => Parsed.usage d
      | Cluster.next o1 true => getoptLoop prog o1 rest
      | Cluster.next o1 false => getoptLoop prog o1 (b :: rest)

/-! ## `main` -/

/-- The conversion `port = strtol(...)`, from `long` to `int` (two's complement
wrap to 32 bits). -/
def longToInt (x : Int) : Int := (x + 2147483648) % 4294967296 - 2147483648

/-- The port number stored by `addr.sin_port = htons(port)`: the argument is
converted to `uint16_t`. -/
def htons (port : Int) : Nat := (port % 65536).toNat

/-- The deadline argument of `select`, line 127 to 130:
`tv_sec = timeout_sec + timeout_usec / 1000000`,
`tv_usec = timeout_usec % 1000000` (C division truncates toward zero), and
`&timeout` is passed when `tv_sec + tv_usec > 0`, `NULL` otherwise.  `none`
when one of the two additions overflows `long`. -/
def selectTimeout (timeout_sec timeout_usec : Int) : Option SelectTimeout :=
  let tv_sec := timeout_sec + Int.tdiv timeout_usec 1000000
  let tv_usec := Int.tmod timeout_usec 1000000
  if inLong tv_sec && inLong (tv_sec + tv_usec) then
    some (if tv_sec + tv_usec > 0 then SelectTimeout.ptr ⟨tv_sec, tv_usec⟩
          else SelectTimeout.null)
  else none

/-- A line printed only `if (verbose)`. -/
def say (verbose : Bool) (s : Stream) (text : String) : List Event :=
  if verbose then [Event.write s text] else []

/-- The text `"%s port %s closed.\n"`. -/
def closedText (host port : String) : String := host ++ " port " ++ port ++ " closed.\n"

/-- The text `"%s port %s open.\n"`. -/
def openText (host port : String) : String := host ++ " port " ++ port ++ " open.\n"

/-- The text `"%s port %s user timeout.\n"`. -/
def timeoutText (host port : String) : String :=
  host ++ " port " ++ port ++ " user timeout.\n"

/-- The text `"error: %s port %s: %s\n"`. -/
def connectErrorText (host port err : String) : String :=
  "error: " ++ host ++ " port " ++ port ++ ": " ++ err ++ "\n"

/-- The text `"error: %s port %s: getsockopt: %s\n"`. -/
def getsockoptErrorText (host port err : String) : String :=
  "error: " ++ host ++ " port " ++ port ++ ": getsockopt: " ++ err ++ "\n"

/-- The text printed when `gethostbyname` returns `NULL`. -/
def resolveErrorText (b : Build) (env : Env) : String :=
  if b.HAVE_HSTRERROR then "error: " ++ env.hstrerror ++ "\n" else "error: host not found"

/-- Lines 123 to 162, reached when `connect` failed with `EINPROGRESS`: the
readiness wait, the pending error query and the report. -/
def awaitCompletion (env : Env) (o : Opts) (host port : String) (sockfd : Int) : Run :=
  match selectTimeout o.timeout_sec o.timeout_usec with
  | none => ⟨[], Status.undefined⟩
  | some t =>
    let s := env.select t
    if s.ret = 0 then
      ⟨[Event.select t, Event.close sockfd] ++ say o.verbose Stream.stdout (timeoutText host port),
        Status.exited 2⟩
    else if s.rset || s.wset then
      let g := env.getsockopt
      if g.ret ≠ 0 then
        ⟨[Event.select t]
            ++ say o.verbose Stream.stderr (getsockoptErrorText host port (env.strerror g.errno))
            ++ [Event.close sockfd],
          Status.exited (-1)⟩
      else if g.error ≠ 0 then
        ⟨[Event.select t] ++ say o.verbose Stream.stdout (closedText host port)
            ++ [Event.close sockfd],
          Status.exited 1⟩
      else
        ⟨[Event.select t, Event.close sockfd] ++ say o.verbose Stream.stdout (openText host port),
          Status.exited 0⟩
    else
      ⟨[Event.select t] ++ say o.verbose Stream.stderr "error: select: sockfd not set\n",
        Status.exited (-1)⟩

/-- Lines 103 to 162: the connection attempt on `sockfd` to `addr`. -/
def connector (b : Build) (env : Env) (o : Opts) (host port : String) (sockfd : Int)
    (addr : SockAddrIn) : Run :=
  let c := connectCall env sockfd addr
  if c.ret ≠ 0 then
    if c.errno ≠ Errno.EINPROGRESS then
      if b.HAVE_SOLARIS && decide (c.errno = Errno.ECONNREFUSED) then
        ⟨[Event.connect sockfd addr] ++ say o.verbose Stream.stdout (closedText host port)
            ++ [Event.close sockfd],
          Status.exited 1⟩
      else
        ⟨[Event.connect sockfd addr]
            ++ say o.verbose Stream.stderr (connectErrorText host port (env.strerror c.errno)),
          Status.exited (-1)⟩
    else
      let r := awaitCompletion env o host port sockfd
      ⟨Event.connect sockfd addr :: r.trace, r.status⟩
  else
    ⟨[Event.connect sockfd addr, Event.close sockfd]
        ++ say o.verbose Stream.stdout (openText host port),
      Status.exited 0⟩

/-- Lines 77 to 162: everything after the option loop.  `rest` is
`argv[optind..]`; an empty `rest` makes `argv[optind]` the terminating null
pointer, which `gethostbyname` must not be given. -/
def probe (b : Build) (env : Env) (prog : String) (o : Opts) : List String → Run
  | [] => ⟨[Event.socket env.socket], Status.undefined⟩
  | host :: rest =>
    match env.gethostbyname host with
    | none =>
      ⟨Event.socket env.socket :: say o.verbose Stream.stderr (resolveErrorText b env),
        Status.exited (-1)⟩
    | some h =>
      match rest with
      | [] => ⟨Event.socket env.socket :: (usage prog).trace, (usage prog).status⟩
      | port :: _ =>
        if (strtol port.data).consumed = 0 then
          ⟨Event.socket env.socket :: (usage prog).trace, (usage prog).status⟩
        else
          let r := connector b env o host port env.socket
            ⟨h.h_addrtype, htons (longToInt (strtol port.data).value), h.h_addr⟩
          ⟨Event.socket env.socket :: r.trace, r.status⟩

/-- The program: `argv[0] = prog`, `argv[1..] = args`, `argc = args.length + 1`. -/
def main (b : Build) (env : Env) (prog : String) (args : List String) : Run :=
  if args.length + 1 < 3 then usage prog
  else
    match getoptLoop prog Opts.init args with
    | Parsed.usage d => ⟨d ++ (usage prog).trace, (usage prog).status⟩
    | Parsed.done o rest => probe b env prog o rest

/-- The value of `verbose` that governs the messages of a run: `usage` prints
unconditionally, everything else tests the flag left by the option loop. -/
def verboseRun (prog : String) (args : List String) : Bool :=
  if args.length + 1 < 3 then true
  else
    match getoptLoop prog Opts.init args with
    | Parsed.usage _ => true
    | Parsed.done o _ => o.verbose

/-- The option variables after an additional `-q`: `verbose = 0`, timeouts kept. -/
def Opts.quiet (o : Opts) : Opts := ⟨false, o.timeout_sec, o.timeout_usec⟩

/-- A cluster outcome with `verbose` cleared. -/
def Cluster.quiet : Cluster → Cluster
  | Cluster.next o u => Cluster.next o.quiet u
  | Cluster.usage d => Cluster.usage d

/-- A loop outcome with `verbose` cleared. -/
def Parsed.quiet : Parsed → Parsed
  | Parsed.done o rest => Parsed.done o.quiet rest
  | Parsed.usage d => Parsed.usage d

/-- The last three characters of a line, last first. -/
def ending (t : String) : List Char := t.data.reverse.take 3

/-- The correspondence between exit status and the one line of a run: status 0
goes with a line `... open.` on standard output, 1 with `... closed.`, 2 with
`... user timeout.`, and -1 with a line `error: ...` on the error stream. -/
def Corresponds (code : Int) (s : Stream) (t : String) : Prop :=
  (code = 0 ↔ (s = Stream.stdout ∧ ∃ pre : String, t = pre ++ " open.\n")) ∧
  (code = 1 ↔ (s = Stream.stdout ∧ ∃ pre : String, t = pre ++ " closed.\n")) ∧
  (code = 2 ↔ (s = Stream.stdout ∧ ∃ pre : String, t = pre ++ " user timeout.\n")) ∧
  (code = -1 ↔ (s = Stream.stderr ∧ ∃ post : String, t = "error: " ++ post))

/-- A run that ends with an exit status among 0, 1, 2, -1 after exactly one
line was written, by the program, and the line corresponds to the status. -/
def Reported (r : Run) : Prop :=
  ∃ code s t, r.status = Status.exited code ∧ emitted r = [(s, t)] ∧ writes r = [(s, t)] ∧
    Corresponds code s t ∧ (code = 0 ∨ code = 1 ∨ code = 2 ∨ code = -1)

/-! ## Sample environments -/

/-- A resolver that knows no host. -/
def noHost : String → Option HostEnt := fun _ => none

/-- A resolver that maps every name to `127.0.0.1`. -/
def anyHost : String → Option HostEnt := fun _ => some ⟨2, 2130706433⟩

/-- Text of `strerror`, abbreviated. -/
def strerrorText : Errno → String
  | Errno.EINPROGRESS => "Operation now in progress"
  | Errno.ECONNREFUSED => "Connection refused"
  | Errno.EBADF => "Bad file descriptor"
  | Errno.other _ => "Unknown error"

/-- The default build: neither `HAVE_HSTRERROR` nor `HAVE_SOLARIS`. -/
def defaultBuild : Build := ⟨false, false⟩

/-- An environment from its varying parts: resolver, `connect`, `select`, `getsockopt`
answers; `socket` returns descriptor 3. -/
def mkEnv (res : String → Option HostEnt) (c : ConnectResult) (s : SelectResult)
    (g : GetsockoptResult) : Env :=
  ⟨3, res, "Unknown host", fun _ => c, fun _ => s, g, strerrorText⟩

end Tcping

namespace Tcping

/-! ## Auxiliary facts about the option loop -/

theorem getoptLoop_done_length (prog : String) :
    ∀ (n : Nat) (args : List String) (o o1 : Opts) (rest : List String),
      args.length ≤ n → getoptLoop prog o args = Parsed.done o1 rest →
      rest.length ≤ args.length := by
  intro n
  induction n with
  | zero =>
    intro args o o1 rest hn h
    have : args = [] := List.length_eq_zero.mp (Nat.le_zero.mp hn)
    subst this
    simp [getoptLoop] at h
    simp [h.2.symm]
  | succ n ih =>
    intro args o o1 rest hn h
    match args, hn, h with
    | [], _, h =>
      simp [getoptLoop] at h
      simp [h.2.symm]
    | [a], _, h =>
      simp only [getoptLoop] at h
      split at h
      · simp at h; simp [h.2.symm]
      · simp at h; simp [h.2.symm]
      · split at h
        · simp at h
        · simp at h; simp [h.2.symm]
    | a :: b :: tl, hn, h =>
      simp only [getoptLoop] at h
      split at h
      · simp at h; simp [h.2.symm]
      · simp at h; simp [h.2.symm]
      · split at h
        · simp at h
        · have := ih tl _ _ _ (by simp at hn ⊢; omega) h
          simp; omega
        · have := ih (b :: tl) _ _ _ (by simp at hn ⊢; omega) h
          simp at this ⊢; omega

theorem getoptLoop_rest_le (prog : String) (args : List String) (o o1 : Opts)
    (rest : List String) (h : getoptLoop prog o args = Parsed.done o1 rest) :
    rest.length ≤ args.length :=
  getoptLoop_done_length prog args.length args o o1 rest (Nat.le_refl _) h

/-- When the option loop ends normally with the operands `rest`, `main` is
`probe` on them, provided `argc ≥ 3`. -/
theorem main_eq_probe (b : Build) (env : Env) (prog : String) (args rest : List String)
    (o : Opts) (hargc : 2 ≤ args.length)
    (hopts : getoptLoop prog Opts.init args = Parsed.done o rest) :
    main b env prog args = probe b env prog o rest := by
  have : ¬ (args.length + 1 < 3) := by omega
  simp [main, this, hopts]

/-! ## C1: the pending error decides between closed and open -/

/-- C1: in every run where `connect` reports "in progress", the readiness wait
reports the socket readable or writable and the pending-error query succeeds,
a nonzero pending error gives exit status 1 and, when verbose, exactly the line
`<host> port <port> closed.` on standard output; a zero pending error gives
exit status 0 and, when verbose, exactly `<host> port <port> open.` on
standard output, with host and port the two operands as given. -/
theorem pending_error_decides (b : Build) (env : Env) (prog : String)
    (args more : List String) (o : Opts) (host port : String) (h : HostEnt)
    (t : SelectTimeout)
    (hopts : getoptLoop prog Opts.init args = Parsed.done o (host :: port :: more))
    (hres : env.gethostbyname host = some h)
    (hport : (strtol port.data).consumed ≠ 0)
    (hret : (connectCall env env.socket
      ⟨h.h_addrtype, htons (longToInt (strtol port.data).value), h.h_addr⟩).ret ≠ 0)
    (hprog : (connectCall env env.socket
      ⟨h.h_addrtype, htons (longToInt (strtol port.data).value), h.h_addr⟩).errno
        = Errno.EINPROGRESS)
    (hto : selectTimeout o.timeout_sec o.timeout_usec = some t)
    (hsel : (env.select t).ret ≠ 0)
    (hset : (env.select t).rset = true ∨ (env.select t).wset = true)
    (hget : env.getsockopt.ret = 0) :
    (env.getsockopt.error ≠ 0 →
      (main b env prog args).status = Status.exited 1 ∧
      emitted (main b env prog args) =
        if o.verbose then [(Stream.stdout, host ++ " port " ++ port ++ " closed.\n")] else []) ∧
    (env.getsockopt.error = 0 →
      (main b env prog args).status = Status.exited 0 ∧
      emitted (main b env prog args) =
        if o.verbose then [(Stream.stdout, host ++ " port " ++ port ++ " open.\n")] else []) := by
  have hlen := getoptLoop_rest_le prog args _ _ _ hopts
  have hargc : 2 ≤ args.length := by simp at hlen; omega
  rw [main_eq_probe b env prog args _ o hargc hopts]
  have hset1 : ((env.select t).rset || (env.select t).wset) = true := by
    simpa [Bool.or_eq_true] using hset
  constructor
  · intro herr
    cases hv : o.verbose <;>
      simp [probe, hres, hport, connector, hret, hprog, awaitCompletion, hto, hsel, hset1,
        hget, herr, say, hv, emitted, closedText]
  · intro herr
    cases hv : o.verbose <;>
      simp [probe, hres, hport, connector, hret, hprog, awaitCompletion, hto, hsel, hset1,
        hget, herr, say, hv, emitted, openText]

/-- C1 witness: `tcping example.org 80` against a peer that refuses. -/
theorem pending_error_decides_witness :
    (main defaultBuild
        (mkEnv anyHost ⟨-1, Errno.EINPROGRESS⟩ ⟨1, false, true⟩ ⟨0, 111, Errno.other 0⟩)
        "tcping" ["example.org", "80"]).status = Status.exited 1 ∧
    emitted (main defaultBuild
        (mkEnv anyHost ⟨-1, Errno.EINPROGRESS⟩ ⟨1, false, true⟩ ⟨0, 111, Errno.other 0⟩)
        "tcping" ["example.org", "80"]) =
      [(Stream.stdout, "example.org port 80 closed.\n")] :=
  (pending_error_decides defaultBuild
    (mkEnv anyHost ⟨-1, Errno.EINPROGRESS⟩ ⟨1, false, true⟩ ⟨0, 111, Errno.other 0⟩)
    "tcping" ["example.org", "80"] [] Opts.init "example.org" "80" ⟨2, 2130706433⟩
    SelectTimeout.null (by decide) (by rfl) (by decide) (by decide) (by decide) (by decide)
    (by decide) (by decide) (by decide)).1 (by decide)

/-! ## C8: the port is truncated to 16 bits -/

theorem htons_longToInt (n : Int) : htons (longToInt n) = (n % 65536).toNat := by
  unfold htons longToInt
  congr 1
  omega

theorem connector_trace_head (b : Build) (env : Env) (o : Opts) (host port : String)
    (sockfd : Int) (addr : SockAddrIn) :
    ∃ tl, (connector b env o host port sockfd addr).trace = Event.connect sockfd addr :: tl := by
  unfold connector
  simp only []
  split
  · split
    · split <;> exact ⟨_, rfl⟩
    · exact ⟨_, rfl⟩
  · exact ⟨_, rfl⟩

/-- C8: a port argument on which `strtol` converts the integer `n` is accepted
whatever the range of `n` (the run goes on to `connect`, no bound is checked),
and the port placed in the socket address is `n mod 65536`; for
`0 ≤ n ≤ 65535` that is `n` itself, and `n` and `n + 65536` give the same
port. -/
theorem port_truncated (b : Build) (env : Env) (prog : String) (args more : List String)
    (o : Opts) (host port : String) (h : HostEnt)
    (hopts : getoptLoop prog Opts.init args = Parsed.done o (host :: port :: more))
    (hres : env.gethostbyname host = some h)
    (hport : (strtol port.data).consumed ≠ 0) :
    (∃ tl, (main b env prog args).trace =
      Event.socket env.socket ::
        Event.connect env.socket
          ⟨h.h_addrtype, ((strtol port.data).value % 65536).toNat, h.h_addr⟩ :: tl) ∧
    (∀ n : Int, 0 ≤ n → n ≤ 65535 → (htons (longToInt n) : Int) = n) ∧
    (∀ n : Int, htons (longToInt (n + 65536)) = htons (longToInt n)) := by
  have hlen := getoptLoop_rest_le prog args _ _ _ hopts
  have hargc : 2 ≤ args.length := by simp at hlen; omega
  rw [main_eq_probe b env prog args _ o hargc hopts]
  refine ⟨?_, ?_, ?_⟩
  · obtain ⟨tl, htl⟩ := connector_trace_head b env o host port env.socket
      ⟨h.h_addrtype, htons (longToInt (strtol port.data).value), h.h_addr⟩
    refine ⟨tl, ?_⟩
    rw [htons_longToInt] at htl
    simp [probe, hres, hport, htl, htons_longToInt]
  · intro n h0 h1
    rw [htons_longToInt]
    have : n % 65536 = n := by omega
    rw [this]
    exact Int.toNat_of_nonneg h0
  · intro n
    rw [htons_longToInt, htons_longToInt]
    congr 1
    omega

/-- C8 witness: `tcping example.org 65616` probes port 80. -/
theorem port_truncated_witness :
    ∃ tl, (main defaultBuild
        (mkEnv anyHost ⟨0, Errno.other 0⟩ ⟨1, false, true⟩ ⟨0, 0, Errno.other 0⟩)
        "tcping" ["example.org", "65616"]).trace =
      Event.socket 3 :: Event.connect 3 ⟨2, 80, 2130706433⟩ :: tl :=
  (port_truncated defaultBuild
    (mkEnv anyHost ⟨0, Errno.other 0⟩ ⟨1, false, true⟩ ⟨0, 0, Errno.other 0⟩)
    "tcping" ["example.org", "65616"] [] Opts.init "example.org" "65616" ⟨2, 2130706433⟩
    (by rfl) (by rfl) (by decide)).1

/-! ## C6: a zero timeout waits without a deadline -/

theorem selectTimeout_nonneg (s u : Int) (hs : 0 ≤ s) (hu : 0 ≤ u)
    (hov : s + u / 1000000 + u % 1000000 ≤ LONG_MAX) :
    selectTimeout s u =
      some (if s + u / 1000000 + u % 1000000 > 0
        then SelectTimeout.ptr ⟨s + u / 1000000, u % 1000000⟩ else SelectTimeout.null) := by
  have hd : Int.tdiv u 1000000 = u / 1000000 := Int.tdiv_eq_ediv hu (by decide)
  have hm : Int.tmod u 1000000 = u % 1000000 := Int.tmod_eq_emod hu (by decide)
  have h1 : 0 ≤ u / 1000000 := Int.ediv_nonneg hu (by decide)
  have h2 : 0 ≤ u % 1000000 := Int.emod_nonneg u (by decide)
  unfold LONG_MAX at hov
  have hin1 : inLong (s + u / 1000000) = true := by
    simp only [inLong, LONG_MIN, LONG_MAX, Bool.and_eq_true, decide_eq_true_eq]
    constructor <;> omega
  have hin2 : inLong (s + u / 1000000 + u % 1000000) = true := by
    simp only [inLong, LONG_MIN, LONG_MAX, Bool.and_eq_true, decide_eq_true_eq]
    constructor <;> omega
  simp only [selectTimeout, hd, hm, hin1, hin2, Bool.and_self, if_true]

theorem probe_exit_two (b : Build) (env : Env) (prog : String) (o : Opts)
    (rest : List String) (h : (probe b env prog o rest).status = Status.exited 2) :
    ∃ t, selectTimeout o.timeout_sec o.timeout_usec = some t ∧ (env.select t).ret = 0 := by
  simp only [probe, connector, awaitCompletion, usage] at h
  repeat' split at h
  all_goals first
    | (exfalso; revert h; simp; done)
    | exact ⟨_, by assumption, by assumption⟩

theorem main_exit_two (b : Build) (env : Env) (prog : String) (args : List String)
    (h : (main b env prog args).status = Status.exited 2) :
    ∃ o rest t, getoptLoop prog Opts.init args = Parsed.done o rest ∧
      selectTimeout o.timeout_sec o.timeout_usec = some t ∧ (env.select t).ret = 0 := by
  unfold main at h
  split at h
  · simp [usage] at h
  · split at h
    · simp [usage] at h
    · rename_i o rest hopts
      obtain ⟨t, ht, hz⟩ := probe_exit_two b env prog o rest h
      exact ⟨o, rest, t, hopts, ht, hz⟩

/-- C6: for non-negative `timeout_sec` and `timeout_usec` whose sums do not
overflow, `select` gets no deadline exactly when both are zero, and otherwise
a deadline with `0 ≤ tv_usec < 1000000` and
`tv_sec * 1000000 + tv_usec = timeout_sec * 1000000 + timeout_usec`;
consequently, when `select` returns 0 only if it was given a deadline, a run
whose option loop leaves both timeouts at zero never exits with status 2. -/
theorem zero_timeout_no_deadline (s u : Int) (hs : 0 ≤ s) (hu : 0 ≤ u)
    (hov : s + u / 1000000 + u % 1000000 ≤ LONG_MAX) :
    (∃ t, selectTimeout s u = some t ∧
      (t = SelectTimeout.null ↔ (s = 0 ∧ u = 0)) ∧
      (∀ tv, t = SelectTimeout.ptr tv →
        0 ≤ tv.tv_usec ∧ tv.tv_usec < 1000000 ∧
        tv.tv_sec * 1000000 + tv.tv_usec = s * 1000000 + u)) ∧
    (∀ (b : Build) (env : Env) (prog : String) (args : List String),
      (∀ t, (env.select t).ret = 0 → t ≠ SelectTimeout.null) →
      (∀ o rest, getoptLoop prog Opts.init args = Parsed.done o rest →
        o.timeout_sec = 0 ∧ o.timeout_usec = 0) →
      (main b env prog args).status ≠ Status.exited 2) := by
  constructor
  · refine ⟨_, selectTimeout_nonneg s u hs hu hov, ?_, ?_⟩
    · by_cases hpos : s + u / 1000000 + u % 1000000 > 0
      · simp only [hpos, if_true]
        constructor
        · intro h; cases h
        · rintro ⟨rfl, rfl⟩; simp at hpos
      · simp only [hpos, if_false, true_iff]
        omega
    · intro tv htv
      by_cases hpos : s + u / 1000000 + u % 1000000 > 0
      · simp only [hpos, if_true, SelectTimeout.ptr.injEq] at htv
        subst htv
        simp only
        omega
      · simp [hpos] at htv
  · intro b env prog args hsel hzero hstat
    obtain ⟨o, rest, t, hopts, ht, hz⟩ := main_exit_two b env prog args hstat
    obtain ⟨h1, h2⟩ := hzero o rest hopts
    rw [h1, h2] at ht
    have : t = SelectTimeout.null := by
      have h0 : selectTimeout 0 0 = some SelectTimeout.null := by decide
      rw [h0] at ht
      exact (Option.some.inj ht).symm
    exact hsel t hz this

/-- C6 witness: `-t 1 -u 2500000` gives the deadline 3.5 s, and the default
run `tcping example.org 80` does not time out under a `select` that reports
readiness. -/
theorem zero_timeout_no_deadline_witness :
    (∃ t, selectTimeout 1 2500000 = some t ∧
      (t = SelectTimeout.null ↔ ((1 : Int) = 0 ∧ (2500000 : Int) = 0)) ∧
      (∀ tv, t = SelectTimeout.ptr tv →
        0 ≤ tv.tv_usec ∧ tv.tv_usec < 1000000 ∧
        tv.tv_sec * 1000000 + tv.tv_usec = 1 * 1000000 + 2500000)) ∧
    (main defaultBuild
        (mkEnv anyHost ⟨-1, Errno.EINPROGRESS⟩ ⟨1, false, true⟩ ⟨0, 0, Errno.other 0⟩)
        "tcping" ["example.org", "80"]).status ≠ Status.exited 2 :=
  ⟨(zero_timeout_no_deadline 1 2500000 (by decide) (by decide) (by decide)).1,
    (zero_timeout_no_deadline 1 2500000 (by decide) (by decide) (by decide)).2
      defaultBuild
      (mkEnv anyHost ⟨-1, Errno.EINPROGRESS⟩ ⟨1, false, true⟩ ⟨0, 0, Errno.other 0⟩)
      "tcping" ["example.org", "80"]
      (by intro t h; simp [mkEnv] at h)
      (by intro o rest h; simp [getoptLoop, argKind] at h; rw [← h.1]; exact ⟨rfl, rfl⟩)⟩

/-! ## C7: `-q` silences a well-formed run and keeps its exit status -/

theorem scanCluster_quiet (prog : String) (nxt : Option String) (o : Opts) (cs : List Char) :
    scanCluster prog nxt o.quiet cs = (scanCluster prog nxt o cs).quiet := by
  induction o, cs using scanCluster.induct prog nxt with
  | case1 o => simp only [scanCluster, Cluster.quiet]
  | case2 o cs ih =>
    simp only [scanCluster, Opts.quiet] at ih ⊢
    exact ih
  | case13 o c tl h1 h2 h3 h4 h5 =>
    rw [scanCluster, scanCluster]
    · rfl
    all_goals assumption
  | _ => simp [scanCluster, Opts.quiet, Cluster.quiet, *]

theorem getoptLoop_quiet (prog : String) (o : Opts) (args : List String) :
    getoptLoop prog o.quiet args = (getoptLoop prog o args).quiet := by
  induction o, args using getoptLoop.induct prog <;>
    simp_all [getoptLoop, Parsed.quiet, scanCluster_quiet, Cluster.quiet]

theorem awaitCompletion_quiet (env : Env) (o : Opts) (host port : String) (sockfd : Int) :
    (awaitCompletion env o.quiet host port sockfd).status
        = (awaitCompletion env o host port sockfd).status ∧
    emitted (awaitCompletion env o.quiet host port sockfd) = [] := by
  simp only [awaitCompletion, Opts.quiet, say]
  cases selectTimeout o.timeout_sec o.timeout_usec with
  | none => simp [emitted]
  | some t =>
    simp only []
    by_cases h0 : (env.select t).ret = 0
    · simp [h0, emitted]
    · by_cases h1 : ((env.select t).rset || (env.select t).wset) = true
      · by_cases h2 : env.getsockopt.ret = 0
        · by_cases h3 : env.getsockopt.error = 0
          · simp [h0, h1, h2, h3, emitted]
          · simp [h0, h1, h2, h3, emitted]
        · simp [h0, h1, h2, emitted]
      · simp [h0, h1, emitted]

theorem emitted_cons_silent (e : Event) (tr : List Event) (st st1 : Status)
    (he : (match e with
      | Event.write s t => some (s, t)
      | Event.getoptDiag t => some (Stream.stderr, t)
      | _ => none) = none)
    (h : emitted ⟨tr, st⟩ = []) : emitted ⟨e :: tr, st1⟩ = [] := by
  simp only [emitted] at h ⊢
  rw [List.filterMap_cons, he]
  exact h

theorem connector_quiet (b : Build) (env : Env) (o : Opts) (host port : String)
    (sockfd : Int) (addr : SockAddrIn) :
    (connector b env o.quiet host port sockfd addr).status
        = (connector b env o host port sockfd addr).status ∧
    emitted (connector b env o.quiet host port sockfd addr) = [] := by
  obtain ⟨hs, he⟩ := awaitCompletion_quiet env o host port sockfd
  simp only [connector]
  by_cases h0 : (connectCall env sockfd addr).ret = 0
  · simp [h0, emitted, say, Opts.quiet]
  · by_cases h1 : (connectCall env sockfd addr).errno = Errno.EINPROGRESS
    · simp only [h0, h1, ne_eq, not_false_eq_true, not_true_eq_false, if_true, if_false]
      exact ⟨hs, emitted_cons_silent _ _ _ _ rfl he⟩
    · by_cases h2 : (b.HAVE_SOLARIS
          && decide ((connectCall env sockfd addr).errno = Errno.ECONNREFUSED)) = true
      · simp only [h0, h1, h2, ne_eq, not_false_eq_true, if_true]
        simp [emitted, say, Opts.quiet]
      · simp only [h0, h1, h2, ne_eq, not_false_eq_true, if_true, if_false]
        simp [emitted, say, Opts.quiet]

theorem probe_quiet (b : Build) (env : Env) (prog : String) (o : Opts)
    (host port : String) (more : List String)
    (hport : (strtol port.data).consumed ≠ 0) :
    (probe b env prog o.quiet (host :: port :: more)).status
        = (probe b env prog o (host :: port :: more)).status ∧
    emitted (probe b env prog o.quiet (host :: port :: more)) = [] ∧
    (env.gethostbyname host = none →
      (probe b env prog o.quiet (host :: port :: more)).status = Status.exited (-1)) := by
  cases hres : env.gethostbyname host with
  | none => simp [probe, hres, emitted, say, Opts.quiet]
  | some h =>
    obtain ⟨hs, he⟩ := connector_quiet b env o host port env.socket
      ⟨h.h_addrtype, htons (longToInt (strtol port.data).value), h.h_addr⟩
    simp only [probe, hres, hport, if_false]
    exact ⟨hs, emitted_cons_silent _ _ _ _ rfl he, fun h => by cases h⟩

/-- C7: for every argument list whose options are all recognised with numeric
timeout values and that has a host and a numeric port operand, and for every
behaviour of resolver, `connect`, `select` and `getsockopt`, the run with `-q`
put in front writes nothing to either stream and ends with the same status as
the run without it; in particular an unresolvable host with `-q` gives no
output and exit status -1. -/
theorem quiet_run_silent (b : Build) (env : Env) (prog : String) (args more : List String)
    (o : Opts) (host port : String)
    (hopts : getoptLoop prog Opts.init args = Parsed.done o (host :: port :: more))
    (hport : (strtol port.data).consumed ≠ 0) :
    emitted (main b env prog ("-q" :: args)) = [] ∧
    (main b env prog ("-q" :: args)).status = (main b env prog args).status ∧
    (env.gethostbyname host = none →
      (main b env prog ("-q" :: args)).status = Status.exited (-1)) := by
  have hlen := getoptLoop_rest_le prog args _ _ _ hopts
  have hargc : 2 ≤ args.length := by simp at hlen; omega
  have hq : getoptLoop prog Opts.init ("-q" :: args)
      = Parsed.done o.quiet (host :: port :: more) := by
    match args, hargc, hopts with
    | a :: tl, _, hopts =>
      have h1 : getoptLoop prog Opts.init ("-q" :: a :: tl)
          = getoptLoop prog Opts.init.quiet (a :: tl) := by
        simp [getoptLoop, argKind, scanCluster, Opts.quiet, Opts.init]
      rw [h1, getoptLoop_quiet, hopts]
      rfl
  rw [main_eq_probe b env prog args _ o hargc hopts,
    main_eq_probe b env prog ("-q" :: args) _ o.quiet (by simp; omega) hq]
  obtain ⟨h1, h2, h3⟩ := probe_quiet b env prog o host port more hport
  exact ⟨h2, h1, h3⟩

/-- C7 witness: `tcping -q -t 1 nosuchhost 80` with a resolver that fails. -/
theorem quiet_run_silent_witness :
    emitted (main defaultBuild
      (mkEnv noHost ⟨-1, Errno.EINPROGRESS⟩ ⟨1, false, true⟩ ⟨0, 0, Errno.other 0⟩)
      "tcping" ["-q", "-t", "1", "nosuchhost", "80"]) = [] ∧
    (main defaultBuild
      (mkEnv noHost ⟨-1, Errno.EINPROGRESS⟩ ⟨1, false, true⟩ ⟨0, 0, Errno.other 0⟩)
      "tcping" ["-q", "-t", "1", "nosuchhost", "80"]).status = Status.exited (-1) :=
  ⟨(quiet_run_silent defaultBuild
      (mkEnv noHost ⟨-1, Errno.EINPROGRESS⟩ ⟨1, false, true⟩ ⟨0, 0, Errno.other 0⟩)
      "tcping" ["-t", "1", "nosuchhost", "80"] [] ⟨true, 1, 0⟩ "nosuchhost" "80"
      (by rfl) (by decide)).1,
    (quiet_run_silent defaultBuild
      (mkEnv noHost ⟨-1, Errno.EINPROGRESS⟩ ⟨1, false, true⟩ ⟨0, 0, Errno.other 0⟩)
      "tcping" ["-t", "1", "nosuchhost", "80"] [] ⟨true, 1, 0⟩ "nosuchhost" "80"
      (by rfl) (by decide)).2.2 rfl⟩

/-! ## C5: which timeout values the option loop rejects -/

/-- C5, as stated, fails: the value `5x` of `-t` is not a base-10 integer, yet
`tcping -t 5x example.org 80` is not a usage error; the run waits with a
deadline of 5 s and reports the port open with status 0. -/
theorem timeout_value_5x_accepted :
    strtol "5x".data = ⟨5, 1⟩ ∧
    main defaultBuild
      (mkEnv anyHost ⟨-1, Errno.EINPROGRESS⟩ ⟨1, false, true⟩ ⟨0, 0, Errno.other 0⟩)
      "tcping" ["-t", "5x", "example.org", "80"] =
    ⟨[Event.socket 3, Event.connect 3 ⟨2, 80, 2130706433⟩,
        Event.select (SelectTimeout.ptr ⟨5, 0⟩), Event.close 3,
        Event.write Stream.stdout "example.org port 80 open.\n"],
      Status.exited 0⟩ := by
  constructor <;> rfl

theorem getoptLoop_attached (prog : String) (o : Opts) (x : Char) (v : String)
    (rest : List String) (c : Char) (cs : List Char) (hv : v.data = c :: cs) :
    getoptLoop prog o (("-" ++ String.singleton x ++ v) :: rest) =
      match scanCluster prog rest.head? o (x :: c :: cs) with
      | Cluster.usage d => Parsed.usage d
      | Cluster.next o1 true => getoptLoop prog o1 rest.tail
      | Cluster.next o1 false => getoptLoop prog o1 rest := by
  have hd : ("-" ++ String.singleton x ++ v).data = '-' :: x :: c :: cs := by
    simp [String.data_append, hv, String.singleton]
  cases rest with
  | nil =>
    simp only [getoptLoop, argKind, hd, List.head?, List.tail]
    cases scanCluster prog none o (x :: c :: cs) with
    | usage d => rfl
    | next o1 u => cases u <;> simp [getoptLoop]
  | cons r tl =>
    simp only [getoptLoop, argKind, hd, List.head?, List.tail]

/-- C5, amended: a value given to `-t` or `-u`, as the next argument or
attached to the option letter, ends argument parsing in the usage error (usage
line on the error stream, exit status -1) when `strtol` converts nothing of
it, that is when no digit follows its optional leading white space and sign;
when `strtol` converts a prefix, the value is accepted and the option variable
receives the converted prefix, whatever follows the digits. -/
theorem timeout_value_rejected_iff_unconverted (b : Build) (env : Env) (prog : String)
    (o : Opts) (v : String) (rest : List String) :
    ((strtol v.data).consumed = 0 →
      getoptLoop prog o ("-t" :: v :: rest) = Parsed.usage [] ∧
      getoptLoop prog o ("-u" :: v :: rest) = Parsed.usage [] ∧
      main b env prog ("-t" :: v :: rest) = usage prog ∧
      main b env prog ("-u" :: v :: rest) = usage prog ∧
      (v ≠ "" →
        getoptLoop prog o (("-t" ++ v) :: rest) = Parsed.usage [] ∧
        getoptLoop prog o (("-u" ++ v) :: rest) = Parsed.usage [])) ∧
    ((strtol v.data).consumed ≠ 0 →
      getoptLoop prog o ("-t" :: v :: rest)
        = getoptLoop prog ⟨o.verbose, (strtol v.data).value, o.timeout_usec⟩ rest ∧
      getoptLoop prog o ("-u" :: v :: rest)
        = getoptLoop prog ⟨o.verbose, o.timeout_sec, (strtol v.data).value⟩ rest ∧
      getoptLoop prog o (("-t" ++ v) :: rest)
        = getoptLoop prog ⟨o.verbose, (strtol v.data).value, o.timeout_usec⟩ rest ∧
      getoptLoop prog o (("-u" ++ v) :: rest)
        = getoptLoop prog ⟨o.verbose, o.timeout_sec, (strtol v.data).value⟩ rest) := by
  constructor
  · intro h
    have ht : ∀ o1, getoptLoop prog o1 ("-t" :: v :: rest) = Parsed.usage [] := by
      intro o1; simp [getoptLoop, argKind, scanCluster, h]
    have hu : ∀ o1, getoptLoop prog o1 ("-u" :: v :: rest) = Parsed.usage [] := by
      intro o1; simp [getoptLoop, argKind, scanCluster, h]
    refine ⟨ht o, hu o, ?_, ?_, ?_⟩
    · simp [main, ht, usage]
    · simp [main, hu, usage]
    · intro hne
      cases hd : v.data with
      | nil => exact absurd (String.ext hd) hne
      | cons c cs =>
        rw [hd] at h
        constructor
        · have := getoptLoop_attached prog o 't' v rest c cs hd
          have e : "-" ++ String.singleton 't' = "-t" := rfl
          rw [e] at this
          simpa [scanCluster, h] using this
        · have := getoptLoop_attached prog o 'u' v rest c cs hd
          have e : "-" ++ String.singleton 'u' = "-u" := rfl
          rw [e] at this
          simpa [scanCluster, h] using this
  · intro h
    refine ⟨?_, ?_, ?_, ?_⟩
    · simp [getoptLoop, argKind, scanCluster, h]
    · simp [getoptLoop, argKind, scanCluster, h]
    · cases hd : v.data with
      | nil => rw [hd] at h; exact absurd (by decide) h
      | cons c cs =>
        have := getoptLoop_attached prog o 't' v rest c cs hd
        rw [hd] at h
        have e : "-" ++ String.singleton 't' = "-t" := rfl
        rw [e] at this
        simpa [scanCluster, h] using this
    · cases hd : v.data with
      | nil => rw [hd] at h; exact absurd (by decide) h
      | cons c cs =>
        have := getoptLoop_attached prog o 'u' v rest c cs hd
        rw [hd] at h
        have e : "-" ++ String.singleton 'u' = "-u" := rfl
        rw [e] at this
        simpa [scanCluster, h] using this

/-- C5 witness: `-t ""` is a usage error, `-t 5x` sets `timeout_sec` to 5. -/
theorem timeout_value_rejected_iff_unconverted_witness :
    main defaultBuild
      (mkEnv anyHost ⟨0, Errno.other 0⟩ ⟨1, false, true⟩ ⟨0, 0, Errno.other 0⟩)
      "tcping" ["-t", "", "example.org", "80"] = usage "tcping" ∧
    getoptLoop "tcping" Opts.init ["-t", "5x", "example.org", "80"]
      = getoptLoop "tcping" ⟨true, 5, 0⟩ ["example.org", "80"] :=
  ⟨((timeout_value_rejected_iff_unconverted defaultBuild
      (mkEnv anyHost ⟨0, Errno.other 0⟩ ⟨1, false, true⟩ ⟨0, 0, Errno.other 0⟩)
      "tcping" Opts.init "" ["example.org", "80"]).1 (by decide)).2.2.1,
    ((timeout_value_rejected_iff_unconverted defaultBuild
      (mkEnv anyHost ⟨0, Errno.other 0⟩ ⟨1, false, true⟩ ⟨0, 0, Errno.other 0⟩)
      "tcping" Opts.init "5x" ["example.org", "80"]).2 (by decide)).1⟩

/-! ## C2: one line per verbose run, matching the exit status -/

theorem ending_append (pre suf : String) (h : 3 ≤ suf.data.length) :
    ending (pre ++ suf) = ending suf := by
  simp only [ending, String.data_append, List.reverse_append]
  rw [List.take_append_of_le_length (by simpa using h)]

theorem ending_ne (pre q suf1 suf2 : String) (h1 : 3 ≤ suf1.data.length)
    (h2 : 3 ≤ suf2.data.length) (hne : ending suf1 ≠ ending suf2) :
    pre ++ suf1 ≠ q ++ suf2 := by
  intro h
  have := congrArg ending h
  rw [ending_append _ _ h1, ending_append _ _ h2] at this
  exact hne this

theorem corresponds_open (pre : String) :
    Corresponds 0 Stream.stdout (pre ++ " open.\n") := by
  refine ⟨?_, ?_, ?_, ?_⟩
  · exact ⟨fun _ => ⟨rfl, pre, rfl⟩, fun _ => rfl⟩
  · constructor
    · intro h; exact absurd h (by decide)
    · rintro ⟨-, q, hq⟩
      exact absurd hq (ending_ne _ _ _ _ (by decide) (by decide) (by decide))
  · constructor
    · intro h; exact absurd h (by decide)
    · rintro ⟨-, q, hq⟩
      exact absurd hq (ending_ne _ _ _ _ (by decide) (by decide) (by decide))
  · constructor
    · intro h; exact absurd h (by decide)
    · rintro ⟨h, -⟩; cases h

theorem corresponds_closed (pre : String) :
    Corresponds 1 Stream.stdout (pre ++ " closed.\n") := by
  refine ⟨?_, ?_, ?_, ?_⟩
  · constructor
    · intro h; exact absurd h (by decide)
    · rintro ⟨-, q, hq⟩
      exact absurd hq (ending_ne _ _ _ _ (by decide) (by decide) (by decide))
  · exact ⟨fun _ => ⟨rfl, pre, rfl⟩, fun _ => rfl⟩
  · constructor
    · intro h; exact absurd h (by decide)
    · rintro ⟨-, q, hq⟩
      exact absurd hq (ending_ne _ _ _ _ (by decide) (by decide) (by decide))
  · constructor
    · intro h; exact absurd h (by decide)
    · rintro ⟨h, -⟩; cases h

theorem corresponds_timeout (pre : String) :
    Corresponds 2 Stream.stdout (pre ++ " user timeout.\n") := by
  refine ⟨?_, ?_, ?_, ?_⟩
  · constructor
    · intro h; exact absurd h (by decide)
    · rintro ⟨-, q, hq⟩
      exact absurd hq (ending_ne _ _ _ _ (by decide) (by decide) (by decide))
  · constructor
    · intro h; exact absurd h (by decide)
    · rintro ⟨-, q, hq⟩
      exact absurd hq (ending_ne _ _ _ _ (by decide) (by decide) (by decide))
  · exact ⟨fun _ => ⟨rfl, pre, rfl⟩, fun _ => rfl⟩
  · constructor
    · intro h; exact absurd h (by decide)
    · rintro ⟨h, -⟩; cases h

theorem corresponds_error (post : String) :
    Corresponds (-1) Stream.stderr ("error: " ++ post) := by
  refine ⟨?_, ?_, ?_, ?_⟩
  · constructor
    · intro h; exact absurd h (by decide)
    · rintro ⟨h, -⟩; cases h
  · constructor
    · intro h; exact absurd h (by decide)
    · rintro ⟨h, -⟩; cases h
  · constructor
    · intro h; exact absurd h (by decide)
    · rintro ⟨h, -⟩; cases h
  · exact ⟨fun _ => ⟨rfl, post, rfl⟩, fun _ => rfl⟩

theorem corresponds_usage (prog : String) :
    Corresponds (-1) Stream.stderr (usageText prog) := by
  have h : usageText prog = "error: " ++ ("Usage: " ++ prog
      ++ " [-q] [-t timeout_sec] [-u timeout_usec] <host> <port>\n") := by
    have e : "error: Usage: " = "error: " ++ "Usage: " := rfl
    simp only [usageText, e, String.append_assoc]
  rw [h]
  exact corresponds_error _

theorem corresponds_resolveError (b : Build) (env : Env) :
    Corresponds (-1) Stream.stderr (resolveErrorText b env) := by
  unfold resolveErrorText
  split
  · rw [String.append_assoc]
    exact corresponds_error _
  · exact corresponds_error "host not found"

theorem corresponds_connectError (host port err : String) :
    Corresponds (-1) Stream.stderr (connectErrorText host port err) := by
  simp only [connectErrorText, String.append_assoc]
  exact corresponds_error _

theorem corresponds_getsockoptError (host port err : String) :
    Corresponds (-1) Stream.stderr (getsockoptErrorText host port err) := by
  simp only [getsockoptErrorText, String.append_assoc]
  exact corresponds_error _

theorem reported_usage (prog : String) : Reported (usage prog) :=
  ⟨-1, Stream.stderr, usageText prog, rfl, rfl, rfl, corresponds_usage prog,
    Or.inr (Or.inr (Or.inr rfl))⟩

theorem reported_cons (e : Event) (tr : List Event) (st : Status)
    (he : (match e with
      | Event.write s t => some (s, t)
      | Event.getoptDiag t => some (Stream.stderr, t)
      | _ => none) = none)
    (h : Reported ⟨tr, st⟩) : Reported ⟨e :: tr, st⟩ := by
  obtain ⟨code, s, t, h1, h2, h3, h4, h5⟩ := h
  refine ⟨code, s, t, h1, ?_, ?_, h4, h5⟩
  · simp only [emitted] at h2 ⊢
    rw [List.filterMap_cons, he]
    exact h2
  · simp only [writes] at h3 ⊢
    rw [List.filterMap_cons]
    cases e <;> simp_all

theorem awaitCompletion_reported (env : Env) (o : Opts) (host port : String) (sockfd : Int)
    (hv : o.verbose = true) :
    (awaitCompletion env o host port sockfd).status = Status.undefined ∨
      Reported (awaitCompletion env o host port sockfd) := by
  simp only [awaitCompletion, hv, say]
  cases selectTimeout o.timeout_sec o.timeout_usec with
  | none => exact Or.inl rfl
  | some t =>
    right
    simp only []
    by_cases h0 : (env.select t).ret = 0
    · simp only [h0, if_true]
      exact ⟨2, Stream.stdout, _, rfl, rfl, rfl, corresponds_timeout _, by decide⟩
    · by_cases h1 : ((env.select t).rset || (env.select t).wset) = true
      · by_cases h2 : env.getsockopt.ret = 0
        · by_cases h3 : env.getsockopt.error = 0
          · simp only [h0, h1, h2, h3, ne_eq, not_true_eq_false, if_true, if_false]
            exact ⟨0, Stream.stdout, _, rfl, rfl, rfl, corresponds_open _, by decide⟩
          · simp only [h0, h1, h2, h3, ne_eq, not_true_eq_false, not_false_eq_true,
              if_true, if_false]
            exact ⟨1, Stream.stdout, _, rfl, rfl, rfl, corresponds_closed _, by decide⟩
        · simp only [h0, h1, h2, ne_eq, not_false_eq_true, if_true, if_false]
          exact ⟨-1, Stream.stderr, _, rfl, rfl, rfl, corresponds_getsockoptError _ _ _,
            by decide⟩
      · simp only [h0, h1, if_false]
        exact ⟨-1, Stream.stderr, _, rfl, rfl, rfl,
          corresponds_error "select: sockfd not set\n", by decide⟩

theorem connector_reported (b : Build) (env : Env) (o : Opts) (host port : String)
    (sockfd : Int) (addr : SockAddrIn) (hv : o.verbose = true) :
    (connector b env o host port sockfd addr).status = Status.undefined ∨
      Reported (connector b env o host port sockfd addr) := by
  simp only [connector, hv, say]
  by_cases h0 : (connectCall env sockfd addr).ret = 0
  · right
    simp only [h0, ne_eq, not_true_eq_false, if_true, if_false]
    exact ⟨0, Stream.stdout, _, rfl, rfl, rfl, corresponds_open _, by decide⟩
  · by_cases h1 : (connectCall env sockfd addr).errno = Errno.EINPROGRESS
    · simp only [h0, h1, ne_eq, not_false_eq_true, not_true_eq_false, if_true, if_false]
      rcases awaitCompletion_reported env o host port sockfd hv with h | h
      · exact Or.inl h
      · exact Or.inr (reported_cons _ _ _ rfl h)
    · right
      by_cases h2 : (b.HAVE_SOLARIS
          && decide ((connectCall env sockfd addr).errno = Errno.ECONNREFUSED)) = true
      · simp only [h0, h1, h2, ne_eq, not_false_eq_true, if_true]
        exact ⟨1, Stream.stdout, _, rfl, rfl, rfl, corresponds_closed _, by decide⟩
      · simp only [h0, h1, h2, ne_eq, not_false_eq_true, if_true, if_false]
        exact ⟨-1, Stream.stderr, _, rfl, rfl, rfl, corresponds_connectError _ _ _, by decide⟩

theorem probe_reported (b : Build) (env : Env) (prog : String) (o : Opts)
    (rest : List String) (hv : o.verbose = true) :
    (probe b env prog o rest).status = Status.undefined ∨
      Reported (probe b env prog o rest) := by
  match rest with
  | [] => exact Or.inl rfl
  | host :: tl =>
    cases hres : env.gethostbyname host with
    | none =>
      right
      simp only [probe, hres, hv, say, if_true]
      exact ⟨-1, Stream.stderr, _, rfl, rfl, rfl, corresponds_resolveError b env, by decide⟩
    | some h =>
      match tl with
      | [] =>
        right
        simp only [probe, hres]
        exact reported_cons _ _ _ rfl (reported_usage prog)
      | port :: more =>
        by_cases hp : (strtol port.data).consumed = 0
        · right
          simp only [probe, hres, hp, if_true]
          exact reported_cons _ _ _ rfl (reported_usage prog)
        · simp only [probe, hres, hp, if_false]
          rcases connector_reported b env o host port env.socket
            ⟨h.h_addrtype, htons (longToInt (strtol port.data).value), h.h_addr⟩ hv with h1 | h1
          · exact Or.inl h1
          · exact Or.inr (reported_cons _ _ _ rfl h1)

theorem scanCluster_usage_diag (prog : String) (nxt : Option String) (o : Opts)
    (cs : List Char) (d : List Event) (h : scanCluster prog nxt o cs = Cluster.usage d) :
    d = [] ∨ ∃ t, d = [Event.getoptDiag t] := by
  induction o, cs using scanCluster.induct prog nxt with
  | case2 o cs ih =>
    simp only [scanCluster] at h
    exact ih h
  | case13 o c tl h1 h2 h3 h4 h5 =>
    rw [scanCluster] at h
    · exact Or.inr ⟨_, (Cluster.usage.inj h).symm⟩
    all_goals assumption
  | _ =>
    simp_all [scanCluster]
    try exact Or.inr ⟨_, h.symm⟩
    try exact Or.inl h.symm

theorem getoptLoop_usage_diag (prog : String) (o : Opts) (args : List String)
    (d : List Event) (h : getoptLoop prog o args = Parsed.usage d) :
    d = [] ∨ ∃ t, d = [Event.getoptDiag t] := by
  induction o, args using getoptLoop.induct prog with
  | case4 o a cs hk d1 hc =>
    simp only [getoptLoop, hk, hc] at h
    cases h
    exact scanCluster_usage_diag prog none o cs d hc
  | case8 o a b1 rest cs hk d1 hc =>
    simp only [getoptLoop, hk, hc] at h
    cases h
    exact scanCluster_usage_diag prog (some b1) o cs d hc
  | case9 o a b1 rest cs hk o1 hc ih =>
    simp only [getoptLoop, hk, hc] at h
    exact ih h
  | case10 o a b1 rest cs hk o1 hc ih =>
    simp only [getoptLoop, hk, hc] at h
    exact ih h
  | _ => simp_all [getoptLoop]

/-- C2, as stated, fails: `tcping -x example.org 80` is a verbose run that
emits two lines on the error stream, the diagnostic of `getopt` for the
unknown option and then the usage line. -/
theorem unknown_option_emits_two_lines :
    verboseRun "tcping" ["-x", "example.org", "80"] = true ∧
    main defaultBuild
      (mkEnv anyHost ⟨0, Errno.other 0⟩ ⟨1, false, true⟩ ⟨0, 0, Errno.other 0⟩)
      "tcping" ["-x", "example.org", "80"] =
    ⟨[Event.getoptDiag "tcping: invalid option -- x\n",
        Event.write Stream.stderr
          "error: Usage: tcping [-q] [-t timeout_sec] [-u timeout_usec] <host> <port>\n"],
      Status.exited (-1)⟩ ∧
    (emitted (main defaultBuild
      (mkEnv anyHost ⟨0, Errno.other 0⟩ ⟨1, false, true⟩ ⟨0, 0, Errno.other 0⟩)
      "tcping" ["-x", "example.org", "80"])).length = 2 := by
  refine ⟨by rfl, by rfl, by rfl⟩

/-- C2, amended: every verbose run that ends with an exit status ends with 0,
1, 2 or -1, and the program itself writes exactly one line, whose stream and
text correspond to the status (0 iff `... open.` on standard output, 1 iff
`... closed.` there, 2 iff `... user timeout.` there, -1 iff `error: ...` on
the error stream); nothing else is emitted, except that the usage line may be
preceded on the error stream by one diagnostic that `getopt` itself prints. -/
theorem verbose_run_reports_once (b : Build) (env : Env) (prog : String)
    (args : List String) (code : Int)
    (hv : verboseRun prog args = true)
    (hex : (main b env prog args).status = Status.exited code) :
    (code = 0 ∨ code = 1 ∨ code = 2 ∨ code = -1) ∧
    ∃ s t, writes (main b env prog args) = [(s, t)] ∧ Corresponds code s t ∧
      (emitted (main b env prog args) = [(s, t)] ∨
        ∃ d, emitted (main b env prog args) = [(Stream.stderr, d), (s, t)] ∧
          t = usageText prog) := by
  have key : ∀ r : Run, Reported r → r.status = Status.exited code →
      (code = 0 ∨ code = 1 ∨ code = 2 ∨ code = -1) ∧
      ∃ s t, writes r = [(s, t)] ∧ Corresponds code s t ∧ emitted r = [(s, t)] := by
    rintro r ⟨c, s, t, h1, h2, h3, h4, h5⟩ hst
    rw [h1] at hst
    cases hst
    exact ⟨h5, s, t, h3, h4, h2⟩
  unfold verboseRun at hv
  unfold main at hex ⊢
  by_cases hargc : args.length + 1 < 3
  · simp only [hargc, if_true] at hex ⊢
    obtain ⟨hc, s, t, hw, hcor, hem⟩ := key _ (reported_usage prog) hex
    exact ⟨hc, s, t, hw, hcor, Or.inl hem⟩
  · simp only [hargc, if_false] at hex hv ⊢
    cases hopts : getoptLoop prog Opts.init args with
    | usage d =>
      simp only [hopts] at hex ⊢
      have hcode : code = -1 := by
        simp only [usage] at hex
        exact (Status.exited.inj hex).symm
      subst hcode
      refine ⟨by decide, Stream.stderr, usageText prog, ?_, corresponds_usage prog, ?_⟩
      · rcases getoptLoop_usage_diag prog _ _ d hopts with rfl | ⟨t, rfl⟩ <;>
          simp [writes, usage]
      · rcases getoptLoop_usage_diag prog _ _ d hopts with rfl | ⟨t, rfl⟩
        · left; simp [emitted, usage]
        · right; exact ⟨t, by simp [emitted, usage], rfl⟩
    | done o rest =>
      simp only [hopts] at hex hv ⊢
      rcases probe_reported b env prog o rest hv with h | h
      · rw [h] at hex; cases hex
      · obtain ⟨hc, s, t, hw, hcor, hem⟩ := key _ h hex
        exact ⟨hc, s, t, hw, hcor, Or.inl hem⟩

/-- C2 witness: `tcping example.org 80` against a listening port. -/
theorem verbose_run_reports_once_witness :
    ((0 : Int) = 0 ∨ (0 : Int) = 1 ∨ (0 : Int) = 2 ∨ (0 : Int) = -1) ∧
    ∃ s t, writes (main defaultBuild
        (mkEnv anyHost ⟨-1, Errno.EINPROGRESS⟩ ⟨1, false, true⟩ ⟨0, 0, Errno.other 0⟩)
        "tcping" ["example.org", "80"]) = [(s, t)] ∧ Corresponds 0 s t ∧
      (emitted (main defaultBuild
        (mkEnv anyHost ⟨-1, Errno.EINPROGRESS⟩ ⟨1, false, true⟩ ⟨0, 0, Errno.other 0⟩)
        "tcping" ["example.org", "80"]) = [(s, t)] ∨
        ∃ d, emitted (main defaultBuild
          (mkEnv anyHost ⟨-1, Errno.EINPROGRESS⟩ ⟨1, false, true⟩ ⟨0, 0, Errno.other 0⟩)
          "tcping" ["example.org", "80"]) = [(Stream.stderr, d), (s, t)] ∧
          t = usageText "tcping") :=
  verbose_run_reports_once defaultBuild
    (mkEnv anyHost ⟨-1, Errno.EINPROGRESS⟩ ⟨1, false, true⟩ ⟨0, 0, Errno.other 0⟩)
    "tcping" ["example.org", "80"] 0 (by rfl) (by rfl)

/-! ## C3: fewer than two operands -/

/-- With `argc < 3` the run is exactly `usage`. -/
theorem short_argv_usage (b : Build) (env : Env) (prog : String) (args : List String)
    (h : args.length + 1 < 3) : main b env prog args = usage prog := by
  simp [main, h]

/-- With one operand that resolves, the run creates the socket and then
ends in `usage`. -/
theorem one_resolved_operand_usage (b : Build) (env : Env) (prog : String)
    (args : List String) (o : Opts) (host : String) (h : HostEnt)
    (hargc : 2 ≤ args.length)
    (hopts : getoptLoop prog Opts.init args = Parsed.done o [host])
    (hres : env.gethostbyname host = some h) :
    main b env prog args =
      ⟨[Event.socket env.socket, Event.write Stream.stderr (usageText prog)],
        Status.exited (-1)⟩ := by
  rw [main_eq_probe b env prog args _ o hargc hopts]
  simp [probe, hres, usage]

/-- C3 at its failing inputs: with a single operand that does not resolve,
`tcping -q -q nosuchhost` exits with status -1 without writing anything and
`tcping -t 1 nosuchhost` writes the resolver error, not the usage line; with
no operand at all, `tcping -t 5` passes the argument list's terminating null
pointer to `gethostbyname`. -/
theorem one_unresolved_operand_no_usage :
    main defaultBuild
      (mkEnv noHost ⟨0, Errno.other 0⟩ ⟨1, false, true⟩ ⟨0, 0, Errno.other 0⟩)
      "tcping" ["-q", "-q", "nosuchhost"] =
    ⟨[Event.socket 3], Status.exited (-1)⟩ ∧
    main defaultBuild
      (mkEnv noHost ⟨0, Errno.other 0⟩ ⟨1, false, true⟩ ⟨0, 0, Errno.other 0⟩)
      "tcping" ["-t", "1", "nosuchhost"] =
    ⟨[Event.socket 3, Event.write Stream.stderr "error: host not found"],
      Status.exited (-1)⟩ ∧
    main defaultBuild
      (mkEnv anyHost ⟨0, Errno.other 0⟩ ⟨1, false, true⟩ ⟨0, 0, Errno.other 0⟩)
      "tcping" ["-t", "5"] =
    ⟨[Event.socket 3], Status.undefined⟩ := by
  refine ⟨by rfl, by rfl, by rfl⟩

/-! ## C4: paths that leave the socket open -/

/-- C4 at its failing inputs: after `socket` returned descriptor 3, the runs
that end in the resolver error, in the usage error on the port, in an
immediate `connect` error and in the `sockfd not set` error terminate without
a `close` of the descriptor. -/
theorem error_paths_skip_close :
    (main defaultBuild
      (mkEnv noHost ⟨0, Errno.other 0⟩ ⟨1, false, true⟩ ⟨0, 0, Errno.other 0⟩)
      "tcping" ["nosuchhost", "80"] =
    ⟨[Event.socket 3, Event.write Stream.stderr "error: host not found"],
      Status.exited (-1)⟩) ∧
    (main defaultBuild
      (mkEnv anyHost ⟨0, Errno.other 0⟩ ⟨1, false, true⟩ ⟨0, 0, Errno.other 0⟩)
      "tcping" ["example.org", "http"] =
    ⟨[Event.socket 3, Event.write Stream.stderr (usageText "tcping")],
      Status.exited (-1)⟩) ∧
    (main defaultBuild
      (mkEnv anyHost ⟨-1, Errno.ECONNREFUSED⟩ ⟨1, false, true⟩ ⟨0, 0, Errno.other 0⟩)
      "tcping" ["example.org", "80"] =
    ⟨[Event.socket 3, Event.connect 3 ⟨2, 80, 2130706433⟩,
        Event.write Stream.stderr "error: example.org port 80: Connection refused\n"],
      Status.exited (-1)⟩) ∧
    (main defaultBuild
      (mkEnv anyHost ⟨-1, Errno.EINPROGRESS⟩ ⟨1, false, false⟩ ⟨0, 0, Errno.other 0⟩)
      "tcping" ["example.org", "80"] =
    ⟨[Event.socket 3, Event.connect 3 ⟨2, 80, 2130706433⟩, Event.select SelectTimeout.null,
        Event.write Stream.stderr "error: select: sockfd not set\n"],
      Status.exited (-1)⟩) := by
  refine ⟨by rfl, by rfl, by rfl, by rfl⟩

/-! ## C9: a failed readiness wait -/

/-- C9 at its failing input: `select` fails (returns -1 and, as on every
failure, leaves both descriptor sets as they were passed in), the pending
error is still 0, and `tcping example.org 80` reports the port open with exit
status 0. -/
theorem failed_select_reported_open :
    main defaultBuild
      (mkEnv anyHost ⟨-1, Errno.EINPROGRESS⟩ ⟨-1, true, true⟩ ⟨0, 0, Errno.other 0⟩)
      "tcping" ["example.org", "80"] =
    ⟨[Event.socket 3, Event.connect 3 ⟨2, 80, 2130706433⟩, Event.select SelectTimeout.null,
        Event.close 3, Event.write Stream.stdout "example.org port 80 open.\n"],
      Status.exited 0⟩ := by
  rfl

/-! ## C10: negative timeout values -/

/-- C10 at its failing inputs: `-t 5 -u -1` passes `select` the deadline
`(5, -1)` and `-t -1 -u 5` the deadline `(-1, 5)`; in each the sum is
positive and one field is negative. -/
theorem negative_timeout_invalid_deadline :
    selectTimeout 5 (-1) = some (SelectTimeout.ptr ⟨5, -1⟩) ∧
    selectTimeout (-1) 5 = some (SelectTimeout.ptr ⟨-1, 5⟩) ∧
    main defaultBuild
      (mkEnv anyHost ⟨-1, Errno.EINPROGRESS⟩ ⟨-1, true, true⟩ ⟨0, 0, Errno.other 0⟩)
      "tcping" ["-t", "5", "-u", "-1", "example.org", "80"] =
    ⟨[Event.socket 3, Event.connect 3 ⟨2, 80, 2130706433⟩,
        Event.select (SelectTimeout.ptr ⟨5, -1⟩),
        Event.close 3, Event.write Stream.stdout "example.org port 80 open.\n"],
      Status.exited 0⟩ := by
  refine ⟨by rfl, by rfl, by rfl⟩

end Tcping
